import Mathlib

/-! UnixIO.jl `dispatch.c`: the two libdispatch callback shims

`src/dispatch/dispatch.c` defines `jl_dispatch_read` and `jl_dispatch_write`.
Each passes its first three arguments to the libdispatch primitive of the same
name (`dispatch_read`, `dispatch_write`) together with a block whose body is the
single statement `handler(d, e);`.

The embedding is state passing over a `World`: the memory every C function may
change, and an append-only record (`trace`) of the calls that were made.  The
two libdispatch primitives are not part of the repository; they are taken as a
parameter (`Libdispatch`), and each is allowed any behaviour a sequential
callee can have towards the block it is given: change memory, invoke the block
any number of times with arguments of its choosing, look at the memory the
block leaves, and finally stop.  A `World` after a wrapper call is the world
once the request has run to completion.
-/

namespace Dispatch

/-! ## C types -/

/-- The C type `dispatch_fd_t`, an `int` file descriptor. -/
abbrev dispatch_fd_t := Int

/-- The C type `size_t`; no arithmetic is done on it in `dispatch.c`. -/
abbrev size_t := Nat

/-- The C type `dispatch_queue_t`, a queue handle that `dispatch.c` only passes on. -/
abbrev dispatch_queue_t := Nat

/-- The C type `dispatch_data_t`: `none` is the `NULL` pointer, `some bs` a data
object holding the bytes `bs`. -/
abbrev dispatch_data_t := Option (List Nat)

/-- One recorded call. -/
inductive Event where
  /-- The call `dispatch_read(fd, length, queue, block)` was made. -/
  | dispatch_read (fd : dispatch_fd_t) (length : size_t) (queue : dispatch_queue_t)
  /-- The call `dispatch_write(fd, data, queue, block)` was made. -/
  | dispatch_write (fd : dispatch_fd_t) (data : dispatch_data_t) (queue : dispatch_queue_t)
  /-- A primitive invoked the block it was given with `(d, e)`. -/
  | block (d : dispatch_data_t) (e : Int)
  /-- The function pointer `handler` was called with `(d, e)`. -/
  | handler (d : dispatch_data_t) (e : Int)
  deriving DecidableEq

/-- The state a call runs in: the record of calls so far and the memory `σ`
that handlers and primitives read and write. -/
structure World (σ : Type) where
  trace : List Event
  mem : σ

/-- A C function pointer `void(*)(dispatch_data_t data, int error)`, by its
effect on memory. -/
abbrev Handler (σ : Type) := dispatch_data_t → Int → σ → σ

/-- A block `^(dispatch_data_t d, int e) { ... }`. -/
abbrev Block (σ : Type) := dispatch_data_t → Int → World σ → World σ

/-- What a primitive does once called, as far as its caller can tell.
`ret s`: it is done and leaves memory `s`.
`invoke s d e next`: it has brought memory to `s` and now invokes the block with
`(d, e)`; when the block returns leaving memory `s'` it carries on as `next s'`. -/
inductive Resumption (σ : Type) where
  | ret (s : σ) : Resumption σ
  | invoke (s : σ) (d : dispatch_data_t) (e : Int) (next : σ → Resumption σ) : Resumption σ

/-- Run a primitive's behaviour against the block `k` it was given, recording
each invocation of the block. -/
def Resumption.run {σ : Type} (k : Block σ) : Resumption σ → List Event → World σ
  | .ret s, tr => { trace := tr, mem := s }
  | .invoke s d e next, tr =>
    let w := k d e { trace := tr ++ [Event.block d e], mem := s }
    (next w.mem).run k w.trace

/-- The part of libdispatch that `dispatch.c` calls.  Both functions are
external to the repository; their fourth argument, the block, is supplied when
the behaviour is run. -/
structure Libdispatch (σ : Type) where
  dispatch_read : dispatch_fd_t → size_t → dispatch_queue_t → σ → Resumption σ
  dispatch_write : dispatch_fd_t → dispatch_data_t → dispatch_queue_t → σ → Resumption σ

/-! ## The code of `dispatch.c` -/

/-- The statement `handler(d, e);`. -/
def call_handler {σ : Type} (handler : Handler σ) (d : dispatch_data_t) (e : Int)
    (w : World σ) : World σ :=
  { trace := w.trace ++ [Event.handler d e], mem := handler d e w.mem }

/-- The block of `jl_dispatch_read`, lines 10-12:
`^(dispatch_data_t d, int e) { handler(d, e); }`. -/
def jl_dispatch_read_block {σ : Type} (handler : Handler σ) : Block σ :=
  fun d e => call_handler handler d e

/-- The block of `jl_dispatch_write`, lines 21-23:
`^(dispatch_data_t d, int e) { handler(d, e); }`. -/
def jl_dispatch_write_block {σ : Type} (handler : Handler σ) : Block σ :=
  fun d e => call_handler handler d e

/-- The call `dispatch_read(fd, length, queue, k)`. -/
def call_dispatch_read {σ : Type} (lib : Libdispatch σ) (fd : dispatch_fd_t) (length : size_t)
    (queue : dispatch_queue_t) (k : Block σ) (w : World σ) : World σ :=
  (lib.dispatch_read fd length queue w.mem).run k (w.trace ++ [Event.dispatch_read fd length queue])

/-- The call `dispatch_write(fd, data, queue, k)`. -/
def call_dispatch_write {σ : Type} (lib : Libdispatch σ) (fd : dispatch_fd_t)
    (data : dispatch_data_t) (queue : dispatch_queue_t) (k : Block σ) (w : World σ) : World σ :=
  (lib.dispatch_write fd data queue w.mem).run k (w.trace ++ [Event.dispatch_write fd data queue])

/-- The function `jl_dispatch_read`, lines 5-13. -/
def jl_dispatch_read {σ : Type} (lib : Libdispatch σ) (fd : dispatch_fd_t) (length : size_t)
    (queue : dispatch_queue_t) (handler : Handler σ) (w : World σ) : World σ :=
  call_dispatch_read lib fd length queue (jl_dispatch_read_block handler) w

/-- The function `jl_dispatch_write`, lines 16-24. -/
def jl_dispatch_write {σ : Type} (lib : Libdispatch σ) (fd : dispatch_fd_t)
    (data : dispatch_data_t) (queue : dispatch_queue_t) (handler : Handler σ)
    (w : World σ) : World σ :=
  call_dispatch_write lib fd data queue (jl_dispatch_write_block handler) w

/-! ## Observations on traces -/

/-- The arguments of the calls of `handler`, in order. -/
def handler_calls : List Event → List (dispatch_data_t × Int)
  | [] => []
  | Event.handler d e :: tr => (d, e) :: handler_calls tr
  | _ :: tr => handler_calls tr

/-- The arguments of the invocations of the block by a primitive, in order. -/
def block_invocations : List Event → List (dispatch_data_t × Int)
  | [] => []
  | Event.block d e :: tr => (d, e) :: block_invocations tr
  | _ :: tr => block_invocations tr

/-- The deliveries `(d, e)` a primitive makes to its block, in order, when the
block's effect on memory is that of calling `handler`. -/
def Resumption.deliveries {σ : Type} (handler : Handler σ) :
    Resumption σ → List (dispatch_data_t × Int)
  | .ret _ => []
  | .invoke s d e next => (d, e) :: (next (handler d e s)).deliveries handler

/-- The memory a primitive leaves when the block's effect on memory is that of
calling `handler`. -/
def Resumption.final {σ : Type} (handler : Handler σ) : Resumption σ → σ
  | .ret s => s
  | .invoke s d e next => (next (handler d e s)).final handler

/-- The events of a sequence of deliveries that reach `handler`: for each one the
primitive invokes the block, and the block calls `handler`. -/
def delivery_trace : List (dispatch_data_t × Int) → List Event
  | [] => []
  | (d, e) :: ps => Event.block d e :: Event.handler d e :: delivery_trace ps

/-! ## Sample primitives and handlers -/

/-- A primitive behaviour that invokes its block once with `(d, e)` and stops. -/
def deliver_once {σ : Type} (d : dispatch_data_t) (e : Int) (s : σ) : Resumption σ :=
  Resumption.invoke s d e Resumption.ret

theorem handler_calls_append (a b : List Event) :
    handler_calls (a ++ b) = handler_calls a ++ handler_calls b := by
  induction a with
  | nil => rfl
  | cons x a ih => cases x <;> simp [handler_calls, ih]

theorem block_invocations_append (a b : List Event) :
    block_invocations (a ++ b) = block_invocations a ++ block_invocations b := by
  induction a with
  | nil => rfl
  | cons x a ih => cases x <;> simp [block_invocations, ih]

theorem handler_calls_delivery_trace (ps : List (dispatch_data_t × Int)) :
    handler_calls (delivery_trace ps) = ps := by
  induction ps with
  | nil => rfl
  | cons p ps ih => obtain ⟨d, e⟩ := p; simp [delivery_trace, handler_calls, ih]

theorem block_invocations_delivery_trace (ps : List (dispatch_data_t × Int)) :
    block_invocations (delivery_trace ps) = ps := by
  induction ps with
  | nil => rfl
  | cons p ps ih => obtain ⟨d, e⟩ := p; simp [delivery_trace, block_invocations, ih]

/-- Running a primitive against a block that only calls `handler` appends, for
each delivery, the invocation of the block followed by the call of `handler`. -/
theorem run_call_handler {σ : Type} (handler : Handler σ) (r : Resumption σ) (tr : List Event) :
    r.run (fun d e => call_handler handler d e) tr
      = { trace := tr ++ delivery_trace (r.deliveries handler), mem := r.final handler } := by
  induction r generalizing tr with
  | ret s => simp [Resumption.run, Resumption.deliveries, Resumption.final, delivery_trace]
  | invoke s d e next ih =>
    simp [Resumption.run, Resumption.deliveries, Resumption.final, delivery_trace,
      call_handler, ih]

theorem jl_dispatch_read_eq {σ : Type} (lib : Libdispatch σ) (fd : dispatch_fd_t)
    (length : size_t) (queue : dispatch_queue_t) (handler : Handler σ) (w : World σ) :
    jl_dispatch_read lib fd length queue handler w
      = { trace := w.trace ++ Event.dispatch_read fd length queue ::
            delivery_trace ((lib.dispatch_read fd length queue w.mem).deliveries handler),
          mem := (lib.dispatch_read fd length queue w.mem).final handler } := by
  have hk : jl_dispatch_read_block handler = fun d e => call_handler handler d e := rfl
  simp [jl_dispatch_read, call_dispatch_read, hk, run_call_handler]

theorem jl_dispatch_write_eq {σ : Type} (lib : Libdispatch σ) (fd : dispatch_fd_t)
    (data : dispatch_data_t) (queue : dispatch_queue_t) (handler : Handler σ) (w : World σ) :
    jl_dispatch_write lib fd data queue handler w
      = { trace := w.trace ++ Event.dispatch_write fd data queue ::
            delivery_trace ((lib.dispatch_write fd data queue w.mem).deliveries handler),
          mem := (lib.dispatch_write fd data queue w.mem).final handler } := by
  have hk : jl_dispatch_write_block handler = fun d e => call_handler handler d e := rfl
  simp [jl_dispatch_write, call_dispatch_write, hk, run_call_handler]

/-! ## The forwarding blocks -/

/-- C1: the block that `jl_dispatch_read` hands to `dispatch_read`, invoked with
`(d, e)`, calls `handler` exactly once, with `(d, e)` in that order, and does
nothing else: the only event it records is that call, and the memory it leaves
is the one `handler d e` leaves.  Consequently, when `dispatch_read` delivers
`(d, e)` once, the whole request consists of the call of the primitive, the
invocation of the block and one call `handler(d, e)`. -/
theorem jl_dispatch_read_block_calls_handler_once {σ : Type} (lib : Libdispatch σ)
    (fd : dispatch_fd_t) (length : size_t) (queue : dispatch_queue_t) (handler : Handler σ)
    (d : dispatch_data_t) (e : Int) (w : World σ) :
    jl_dispatch_read lib fd length queue handler w
        = call_dispatch_read lib fd length queue (jl_dispatch_read_block handler) w
    ∧ jl_dispatch_read_block handler d e w
        = { trace := w.trace ++ [Event.handler d e], mem := handler d e w.mem }
    ∧ handler_calls (jl_dispatch_read_block handler d e w).trace
        = handler_calls w.trace ++ [(d, e)]
    ∧ jl_dispatch_read
          { dispatch_read := fun _ _ _ s => deliver_once d e s,
            dispatch_write := lib.dispatch_write } fd length queue handler w
        = { trace := w.trace ++
              [Event.dispatch_read fd length queue, Event.block d e, Event.handler d e],
            mem := handler d e w.mem } := by
  refine ⟨rfl, rfl, ?_, ?_⟩
  · simp [jl_dispatch_read_block, call_handler, handler_calls_append, handler_calls]
  · simp [jl_dispatch_read_eq, deliver_once, Resumption.deliveries, Resumption.final,
      delivery_trace]

/-- C2: the block that `jl_dispatch_write` hands to `dispatch_write`, invoked
with `(d, e)`, calls `handler` exactly once, with `(d, e)` in that order.  The
buffer `handler` receives is the `d` the primitive delivered, whatever the
`data` argument of `jl_dispatch_write` was, and `e` is passed on unchanged,
zero or not. -/
theorem jl_dispatch_write_block_calls_handler_once {σ : Type} (lib : Libdispatch σ)
    (fd : dispatch_fd_t) (data : dispatch_data_t) (queue : dispatch_queue_t)
    (handler : Handler σ) (d : dispatch_data_t) (e : Int) (w : World σ) :
    jl_dispatch_write lib fd data queue handler w
        = call_dispatch_write lib fd data queue (jl_dispatch_write_block handler) w
    ∧ jl_dispatch_write_block handler d e w
        = { trace := w.trace ++ [Event.handler d e], mem := handler d e w.mem }
    ∧ handler_calls (jl_dispatch_write_block handler d e w).trace
        = handler_calls w.trace ++ [(d, e)]
    ∧ jl_dispatch_write
          { dispatch_read := lib.dispatch_read,
            dispatch_write := fun _ _ _ s => deliver_once d e s } fd data queue handler w
        = { trace := w.trace ++
              [Event.dispatch_write fd data queue, Event.block d e, Event.handler d e],
            mem := handler d e w.mem } := by
  refine ⟨rfl, rfl, ?_, ?_⟩
  · simp [jl_dispatch_write_block, call_handler, handler_calls_append, handler_calls]
  · simp [jl_dispatch_write_eq, deliver_once, Resumption.deliveries, Resumption.final,
      delivery_trace]

/-! ## The wrappers -/

/-- C10: neither wrapper invokes `handler` itself.  After the call of the
primitive, the events of a request are exactly, for each delivery the primitive
makes to the block, the invocation of the block followed by the call of
`handler` with the same arguments; so the calls of `handler` are the invocations
of the block, one for one: none if the primitive never invokes the block, at
most one if it invokes it at most once. -/
theorem handler_calls_are_block_invocations {σ : Type} (lib : Libdispatch σ)
    (fd : dispatch_fd_t) (length : size_t) (data : dispatch_data_t) (queue : dispatch_queue_t)
    (handler : Handler σ) (w : World σ) :
    ((jl_dispatch_read lib fd length queue handler w).trace
        = w.trace ++ Event.dispatch_read fd length queue ::
            delivery_trace ((lib.dispatch_read fd length queue w.mem).deliveries handler)
      ∧ handler_calls (jl_dispatch_read lib fd length queue handler w).trace
        = handler_calls w.trace ++ (lib.dispatch_read fd length queue w.mem).deliveries handler
      ∧ block_invocations (jl_dispatch_read lib fd length queue handler w).trace
        = block_invocations w.trace
            ++ (lib.dispatch_read fd length queue w.mem).deliveries handler)
    ∧ ((jl_dispatch_write lib fd data queue handler w).trace
        = w.trace ++ Event.dispatch_write fd data queue ::
            delivery_trace ((lib.dispatch_write fd data queue w.mem).deliveries handler)
      ∧ handler_calls (jl_dispatch_write lib fd data queue handler w).trace
        = handler_calls w.trace ++ (lib.dispatch_write fd data queue w.mem).deliveries handler
      ∧ block_invocations (jl_dispatch_write lib fd data queue handler w).trace
        = block_invocations w.trace
            ++ (lib.dispatch_write fd data queue w.mem).deliveries handler) := by
  refine ⟨⟨?_, ?_, ?_⟩, ⟨?_, ?_, ?_⟩⟩
  · simp [jl_dispatch_read_eq]
  · simp [jl_dispatch_read_eq, handler_calls_append, handler_calls,
      handler_calls_delivery_trace]
  · simp [jl_dispatch_read_eq, block_invocations_append, block_invocations,
      block_invocations_delivery_trace]
  · simp [jl_dispatch_write_eq]
  · simp [jl_dispatch_write_eq, handler_calls_append, handler_calls,
      handler_calls_delivery_trace]
  · simp [jl_dispatch_write_eq, block_invocations_append, block_invocations,
      block_invocations_delivery_trace]

/-! ## What the wrappers leave to the primitive -/

end Dispatch
